import Mathlib

/-
Verification of the sports_analyzer prediction-and-evaluation core.

This file gives a shallow embedding, in Lean 4, of the algorithmic core of
the repository:

  backend/services/prediction_engine.py  (factor calculators, combination)
  backend/services/backtester.py         (backtest, betting simulation)
  backend/services/optimizer.py          (weight search, ablation)

Modelling conventions:
  * Python floats are modelled as exact rationals (ℚ).  The claims settled
    here do not depend on IEEE-754 rounding of intermediate results.
  * Python round(x, 1) is modelled as rounding 10*x to the nearest integer
    and dividing by 10.  Python uses banker rounding on floats; none of the
    facts proved below depend on the tie-breaking rule of the rounding.
  * A Python dictionary that may lack a key is modelled with Option fields;
    subscript access on a missing key is a raised KeyError, modelled by the
    error case of Py (an Except monad).  A raised exception is an .error
    value; a try/except block is a match on that value.
  * The SQLite store is modelled by the list of rows that get_games returns
    (the query is ORDER BY game_date DESC LIMIT n, so the various limits
    used by the code are List.take on one shared list).
  * The NFL_STADIUMS table lookup, a .get of the stadium entry followed
    by a .get of the dome flag with default False, is modelled by a
    function from team id to the dome flag.
  * Wall-clock fields (created_at, optimization_date, analysis_date) carry
    no algorithmic content and are omitted from the records.
  * Formatted explanation strings (Python f-strings) are abstracted to
    fixed literals; no property below depends on their contents.
-/

namespace SportsAnalyzer

/-- A raised Python exception is the error case; the payload is a short
description of the exception. -/
abbrev Py (α : Type) := Except String α

/-- Subscript access on a dictionary field: a missing key raises KeyError. -/
def dictGet {α : Type} (o : Option α) (msg : String) : Py α :=
  match o with
  | some a => .ok a
  | none => .error msg

/-- Python round(x, 1): round to one decimal place. -/
def round1 (x : ℚ) : ℚ := ((round (10 * x) : ℤ) : ℚ) / 10

/-- A factor-weight configuration: the factor_weights dictionary of an
engine, a finite map from factor name to weight (insertion ordered, keys
unique in every configuration the code builds). -/
abbrev Weights := List (String × ℚ)

/-- The default factor weights installed by AdvancedPredictionEngine.__init__. -/
def factorWeightsDefault : Weights :=
  [("team_strength", 35/100),
   ("head_to_head", 20/100),
   ("home_advantage", 15/100),
   ("rest_advantage", 10/100),
   ("weather_impact", 10/100),
   ("motivation", 5/100),
   ("injuries", 5/100)]

/-- PredictionFactor dataclass. -/
structure PredictionFactor where
  name : String
  value : ℚ
  weight : ℚ
  confidence : ℚ
  explanation : String
deriving Repr, DecidableEq

/-- A win-loss-tie record dictionary; an Option field models a possibly
missing dictionary entry. -/
structure RecordDict where
  wins : Option ℕ
  losses : Option ℕ
  ties : Option ℕ
deriving Repr, DecidableEq

/-- A team dictionary as supplied to the engine. -/
structure TeamDict where
  id : String
  name : String
  record : Option RecordDict
deriving Repr, DecidableEq

/-- The default record dictionary used by the .get of the record key. -/
def defaultRecord : RecordDict := ⟨some 0, some 0, some 0⟩

/-- Try-block body of _calculate_team_strength_factor. -/
def teamStrengthBody (w : Weights) (home_team away_team : TeamDict) :
    Py PredictionFactor := do
  let home_record := home_team.record.getD defaultRecord
  let away_record := away_team.record.getD defaultRecord
  let hwins ← dictGet home_record.wins "KeyError: wins"
  let hlosses ← dictGet home_record.losses "KeyError: losses"
  let hties ← dictGet home_record.ties "KeyError: ties"
  let awins ← dictGet away_record.wins "KeyError: wins"
  let alosses ← dictGet away_record.losses "KeyError: losses"
  let aties ← dictGet away_record.ties "KeyError: ties"
  let home_games := hwins + hlosses + hties
  let away_games := awins + alosses + aties
  if home_games == 0 || away_games == 0 then do
    let wt ← dictGet (w.lookup "team_strength") "KeyError: team_strength"
    return ⟨"Team Strength", 0, wt, 1/10, "Insufficient season data"⟩
  else do
    let home_win_pct : ℚ := ((hwins : ℚ) + (1/2) * hties) / home_games
    let away_win_pct : ℚ := ((awins : ℚ) + (1/2) * aties) / away_games
    let strength_diff := (home_win_pct - away_win_pct) * 14
    let wt ← dictGet (w.lookup "team_strength") "KeyError: team_strength"
    return ⟨"Team Strength", strength_diff, wt,
      min (9/10) (((home_games : ℚ) + away_games) / 20),
      "Home vs Away win percentage comparison"⟩

/-- The source method _calculate_team_strength_factor: try body, except returns the
zero-value zero-confidence factor. -/
def calcTeamStrength (w : Weights) (home_team away_team : TeamDict) :
    PredictionFactor :=
  match teamStrengthBody w home_team away_team with
  | .ok f => f
  | .error _ => ⟨"Team Strength", 0, 0, 0, "Calculation error"⟩

/-- The game_impact sub-dictionary of a weather snapshot. -/
structure GameImpactDict where
  total_score_impact : Option ℚ
deriving Repr, DecidableEq

/-- A weather snapshot dictionary; a game without one (or with the empty
dictionary, which is falsy) is modelled as Option.none at the use site. -/
structure WeatherDict where
  status : Option String
  game_impact : Option GameImpactDict
  conditions : Option String
deriving Repr, DecidableEq

/-- A row of the games table as returned by SportsDatabase.get_games, with
the weather_data JSON already parsed (the weather field). -/
structure DBGame where
  espn_id : String
  home_team_id : String
  away_team_id : String
  home_team_name : String
  away_team_name : String
  home_score : ℤ
  away_score : ℤ
  status : String
  weather : Option WeatherDict
deriving Repr, DecidableEq

/-- The source method _get_historical_matchups: the try body filters the first 100 stored
games (get_games limit 100) for meetings of the two teams; its except
branch (returning []) is unreachable over typed rows. -/
def getHistoricalMatchups (db : List DBGame) (team1_id team2_id : String) :
    List DBGame :=
  (db.take 100).filter (fun g =>
    (g.home_team_id == team1_id && g.away_team_id == team2_id) ||
    (g.home_team_id == team2_id && g.away_team_id == team1_id))

/-- Try-block body of _calculate_head_to_head_factor. -/
def headToHeadBody (w : Weights) (db : List DBGame)
    (home_team_id away_team_id : String) : Py PredictionFactor := do
  let historical_games := getHistoricalMatchups db home_team_id away_team_id
  if historical_games.length < 3 then do
    let wt ← dictGet (w.lookup "head_to_head") "KeyError: head_to_head"
    return ⟨"Head-to-Head", 0, wt, 1/5, "Limited historical data"⟩
  else do
    let recent_games := historical_games.drop (historical_games.length - 5)
    let total_point_diff : ℤ := recent_games.foldl (fun s game =>
      if game.home_team_id == home_team_id then
        s + (game.home_score - game.away_score)
      else
        s + (game.away_score - game.home_score)) 0
    let avg_point_diff : ℚ := (total_point_diff : ℚ) / recent_games.length
    let wt ← dictGet (w.lookup "head_to_head") "KeyError: head_to_head"
    return ⟨"Head-to-Head", avg_point_diff, wt,
      min (4/5) ((recent_games.length : ℚ) / 5),
      "Recent meetings average margin"⟩

/-- The source method _calculate_head_to_head_factor: try body, except returns the
zero-value zero-confidence factor. -/
def calcHeadToHead (w : Weights) (db : List DBGame)
    (home_team_id away_team_id : String) : PredictionFactor :=
  match headToHeadBody w db home_team_id away_team_id with
  | .ok f => f
  | .error _ => ⟨"Head-to-Head", 0, 0, 0, "Historical data unavailable"⟩

/-- Try-block body of _calculate_home_advantage_factor.  The argument
stadium_dome models the NFL_STADIUMS lookup of the dome flag for the
home team, with default False. -/
def homeAdvantageBody (w : Weights) (stadium_dome : String → Bool)
    (home_team_id : String) : Py PredictionFactor := do
  let base_advantage : ℚ := if stadium_dome home_team_id then 25/10 + 5/10 else 25/10
  let wt ← dictGet (w.lookup "home_advantage") "KeyError: home_advantage"
  return ⟨"Home Advantage", base_advantage, wt, 9/10, "Standard home advantage"⟩

/-- The except branch of _calculate_home_advantage_factor.  It rebuilds a
factor with value 2.5 and confidence 0.8 and re-reads
factor_weights, so it itself raises when that key is absent. -/
def homeAdvantageExcept (w : Weights) : Py PredictionFactor :=
  match w.lookup "home_advantage" with
  | some wt => .ok ⟨"Home Advantage", 25/10, wt, 8/10, "Standard advantage"⟩
  | none => .error "KeyError: home_advantage"

/-- The source method _calculate_home_advantage_factor: try body, except branch as above. -/
def calcHomeAdvantage (w : Weights) (stadium_dome : String → Bool)
    (home_team_id : String) : Py PredictionFactor :=
  match homeAdvantageBody w stadium_dome home_team_id with
  | .ok f => .ok f
  | .error _ => homeAdvantageExcept w

/-- The source method _calculate_rest_factor: the placeholder factor; its body can only fail
on the factor_weights lookup, and the except branch returns zeros. -/
def calcRest (w : Weights) : PredictionFactor :=
  match w.lookup "rest_advantage" with
  | some wt => ⟨"Rest Advantage", 0, wt, 1/10, "Rest data not implemented"⟩
  | none => ⟨"Rest Advantage", 0, 0, 0, "Data unavailable"⟩

/-- Try-block body of _calculate_weather_factor.  The weather argument is
the .get of the weather key of the game; Option.none models both a
missing key and the falsy empty dictionary. -/
def weatherBody (w : Weights) (weather : Option WeatherDict) :
    Py PredictionFactor := do
  match weather with
  | none => do
    let wt ← dictGet (w.lookup "weather_impact") "KeyError: weather_impact"
    return ⟨"Weather", 0, wt, 9/10, "Indoor game - no weather impact"⟩
  | some wd =>
    if wd.status == some "not_needed" then do
      let wt ← dictGet (w.lookup "weather_impact") "KeyError: weather_impact"
      return ⟨"Weather", 0, wt, 9/10, "Indoor game - no weather impact"⟩
    else if wd.status == some "unavailable" then do
      let wt ← dictGet (w.lookup "weather_impact") "KeyError: weather_impact"
      return ⟨"Weather", 0, wt, 1/10, "Weather data unavailable"⟩
    else do
      let game_impact := wd.game_impact.getD ⟨none⟩
      let total_impact := game_impact.total_score_impact.getD 0
      let wt ← dictGet (w.lookup "weather_impact") "KeyError: weather_impact"
      return ⟨"Weather", total_impact, wt, 7/10, "Weather impact on scoring"⟩

/-- The source method _calculate_weather_factor: try body, except returns the zero-value
zero-confidence factor. -/
def calcWeather (w : Weights) (weather : Option WeatherDict) :
    PredictionFactor :=
  match weatherBody w weather with
  | .ok f => f
  | .error _ => ⟨"Weather", 0, 0, 0, "Weather calculation error"⟩

/-- The source method _calculate_motivation_factor: placeholder; except branch returns zeros. -/
def calcMotivation (w : Weights) : PredictionFactor :=
  match w.lookup "motivation" with
  | some wt => ⟨"Motivation", 0, wt, 1/5, "Motivation factors not implemented"⟩
  | none => ⟨"Motivation", 0, 0, 0, "Motivation data unavailable"⟩

/-- The source method _calculate_injury_factor: placeholder; except branch returns zeros. -/
def calcInjuries (w : Weights) : PredictionFactor :=
  match w.lookup "injuries" with
  | some wt => ⟨"Injuries", 0, wt, 1/10, "Injury analysis not implemented"⟩
  | none => ⟨"Injuries", 0, 0, 0, "Injury data unavailable"⟩

/-- The dictionary returned by _calculate_final_prediction. -/
structure FinalResult where
  winner : String
  confidence : ℚ
  spread : ℚ
  total : Option ℚ
deriving Repr, DecidableEq

/-- The accumulation loop of _calculate_final_prediction: for the factors
with confidence above 0, sum value times weight times confidence (first
component) and weight times confidence (second component). -/
def combineAcc (factors : List PredictionFactor) : ℚ × ℚ :=
  factors.foldl (fun s factor =>
    if factor.confidence > 0 then
      (s.1 + factor.value * factor.weight * factor.confidence,
       s.2 + factor.weight * factor.confidence)
    else s) (0, 0)

/-- The normalised point spread of _calculate_final_prediction:
total_weighted_value divided by total_weight, or 0 when total_weight is
not positive. -/
def combineSpread (factors : List PredictionFactor) : ℚ :=
  let acc := combineAcc factors
  if acc.2 > 0 then acc.1 / acc.2 else 0

/-- The source method _calculate_final_prediction: confidence-weighted combination of the
factors, then winner selection, clamping and rounding.  In the source the
two branches of the winner if/else compute the identical confidence
expression, so the confidence is written once here. -/
def calculateFinalPrediction (factors : List PredictionFactor)
    (home_team away_team : TeamDict) : FinalResult :=
  let predicted_spread := combineSpread factors
  ⟨if predicted_spread > 0 then home_team.name else away_team.name,
   round1 (min 85 (|predicted_spread| * 8 + 50)),
   round1 predicted_spread,
   none⟩

/-- A game dictionary as consumed by _predict_single_game. -/
structure GameDict where
  espn_id : String
  status : String
  home_team : TeamDict
  away_team : TeamDict
  weather : Option WeatherDict
deriving Repr, DecidableEq

/-- GamePrediction dataclass (created_at omitted: wall clock). -/
structure GamePrediction where
  game_id : String
  home_team : String
  away_team : String
  predicted_winner : String
  confidence : ℚ
  spread_prediction : ℚ
  total_prediction : Option ℚ
  factors : List PredictionFactor
  algorithm_version : String
deriving Repr, DecidableEq

/-- The source method _predict_single_game.  Returns .ok none for a matchup that is not
scheduled; the .error case is a raised exception escaping the method (the
only raise that can escape is the one re-raised by the Home Advantage
except branch). -/
def predictSingleGame (w : Weights) (stadium_dome : String → Bool)
    (db : List DBGame) (game : GameDict) : Py (Option GamePrediction) :=
  if game.status ≠ "STATUS_SCHEDULED" then .ok none
  else
    match calcHomeAdvantage w stadium_dome game.home_team.id with
    | .error e => .error e
    | .ok f3 =>
      let factors := [calcTeamStrength w game.home_team game.away_team,
                      calcHeadToHead w db game.home_team.id game.away_team.id,
                      f3,
                      calcRest w,
                      calcWeather w game.weather,
                      calcMotivation w,
                      calcInjuries w]
      let r := calculateFinalPrediction factors game.home_team game.away_team
      .ok (some
        { game_id := game.espn_id
          home_team := game.home_team.name
          away_team := game.away_team.name
          predicted_winner := r.winner
          confidence := r.confidence
          spread_prediction := r.spread
          total_prediction := r.total
          factors := factors
          algorithm_version := "1.0" })

/-- A per-factor summary stored in a backtest prediction record. -/
structure FactorBrief where
  name : String
  value : ℚ
  weight : ℚ
deriving Repr, DecidableEq

/-- A per-prediction detail record appended to results of run_backtest. -/
structure PredRecord where
  game_id : String
  matchup : String
  predicted_winner : String
  actual_winner : String
  confidence : ℚ
  correct : Bool
  factors : List FactorBrief
deriving Repr, DecidableEq

/-- A confidence-bucket counter. -/
structure BucketStat where
  correct : ℕ
  total : ℕ
deriving Repr, DecidableEq

/-- A per-factor row of the factor_analysis table. -/
structure FactorStats where
  total_predictions : ℕ
  correct_predictions : ℕ
  avg_impact : ℚ
  accuracy : ℚ
deriving Repr, DecidableEq

/-- The aggregate dictionary returned by run_backtest on success. -/
structure BacktestData where
  total_games : ℕ
  completed_games : ℕ
  correct_predictions : ℕ
  accuracy : ℚ
  avg_confidence : ℚ
  predictions : List PredRecord
  performance_by_confidence : List (String × BucketStat)
  factor_analysis : List (String × FactorStats)
deriving Repr, DecidableEq

/-- Backtester._is_game_completed. -/
def isGameCompleted (game : DBGame) : Bool :=
  game.status == "STATUS_FINAL" || game.home_score > 0 || game.away_score > 0

/-- Backtester._get_historical_games: get_games(limit=500) filtered by the
completeness predicate (date filters are a no-op in the source). -/
def getHistoricalGames (db : List DBGame) : List DBGame :=
  (db.take 500).filter isGameCompleted

/-- Backtester._predict_historical_game: rebuild a synthetic scheduled
matchup (records zeroed, status forced back to scheduled), call the
prediction engine of the backtester, and catch every exception as None.
The w argument is the factor_weights of that engine. -/
def predictHistoricalGame (w : Weights) (stadium_dome : String → Bool)
    (db : List DBGame) (game : DBGame) : Option GamePrediction :=
  let game_data : GameDict :=
    { espn_id := game.espn_id
      status := "STATUS_SCHEDULED"
      home_team := ⟨game.home_team_id, game.home_team_name, some ⟨some 0, some 0, some 0⟩⟩
      away_team := ⟨game.away_team_id, game.away_team_name, some ⟨some 0, some 0, some 0⟩⟩
      weather := game.weather }
  match predictSingleGame w stadium_dome db game_data with
  | .ok p => p
  | .error _ => none

/-- Backtester._get_actual_winner. -/
def getActualWinner (game : DBGame) : String :=
  if game.home_score > game.away_score then game.home_team_name
  else if game.away_score > game.home_score then game.away_team_name
  else "TIE"

/-- Backtester._get_confidence_bucket. -/
def getConfidenceBucket (confidence : ℚ) : String :=
  if confidence ≥ 80 then "80%+"
  else if confidence ≥ 70 then "70-80%"
  else if confidence ≥ 60 then "60-70%"
  else "50-60%"

/-- Update the value stored under a key of an insertion-ordered dictionary. -/
def updateEntry {β : Type} (l : List (String × β)) (k : String) (f : β → β) :
    List (String × β) :=
  l.map (fun p => if p.1 == k then (p.1, f p.2) else p)

/-- The confidence_buckets dictionary as initialised in run_backtest. -/
def initialBuckets : List (String × BucketStat) :=
  [("50-60%", ⟨0, 0⟩), ("60-70%", ⟨0, 0⟩), ("70-80%", ⟨0, 0⟩), ("80%+", ⟨0, 0⟩)]

/-- Backtester._analyze_factors: per-factor accuracy and impact table. -/
def analyzeFactors (predictions : List PredRecord) :
    List (String × FactorStats) :=
  let fp : List (String × FactorStats) := predictions.foldl (fun table pred =>
    pred.factors.foldl (fun table factor =>
      let table :=
        if table.any (fun p => p.1 == factor.name) then table
        else table ++ [(factor.name, ⟨0, 0, 0, 0⟩)]
      updateEntry table factor.name (fun s =>
        { s with
          total_predictions := s.total_predictions + 1
          avg_impact := s.avg_impact + |factor.value|
          correct_predictions :=
            if pred.correct then s.correct_predictions + 1 else s.correct_predictions }))
      table) []
  fp.map (fun p =>
    if p.2.total_predictions > 0 then
      (p.1, { p.2 with
        accuracy := (p.2.correct_predictions : ℚ) / p.2.total_predictions
        avg_impact := p.2.avg_impact / p.2.total_predictions })
    else p)

/-- The running accumulator of the main loop of run_backtest. -/
structure BtAcc where
  completed_games : ℕ
  correct_predictions : ℕ
  total_confidence : ℚ
  buckets : List (String × BucketStat)
  predictions : List PredRecord
deriving Repr, DecidableEq

/-- One iteration of the main loop of run_backtest. -/
def btStep (w : Weights) (stadium_dome : String → Bool) (db : List DBGame)
    (acc : BtAcc) (game : DBGame) : BtAcc :=
  if !isGameCompleted game then acc
  else
    match predictHistoricalGame w stadium_dome db game with
    | none => acc
    | some prediction =>
      let actual_winner := getActualWinner game
      let predicted_winner := prediction.predicted_winner
      let is_correct := actual_winner == predicted_winner
      let bucket := getConfidenceBucket prediction.confidence
      { completed_games := acc.completed_games + 1
        correct_predictions := acc.correct_predictions + (if is_correct then 1 else 0)
        total_confidence := acc.total_confidence + prediction.confidence
        buckets := updateEntry acc.buckets bucket (fun b =>
          ⟨b.correct + (if is_correct then 1 else 0), b.total + 1⟩)
        predictions := acc.predictions ++
          [{ game_id := game.espn_id
             matchup := game.away_team_name ++ " @ " ++ game.home_team_name
             predicted_winner := predicted_winner
             actual_winner := actual_winner
             confidence := prediction.confidence
             correct := is_correct
             factors := prediction.factors.map (fun f => ⟨f.name, f.value, f.weight⟩) }] }

/-- Backtester.run_backtest.  Option.none models the error dictionary
returned when no historical games are found.  The w argument is the
factor_weights of the prediction engine owned by the backtester (the
default configuration after construction). -/
def runBacktest (w : Weights) (stadium_dome : String → Bool)
    (db : List DBGame) : Option BacktestData :=
  let historical_games := getHistoricalGames db
  if historical_games.isEmpty then none
  else
    let acc := historical_games.foldl (btStep w stadium_dome db) ⟨0, 0, 0, initialBuckets, []⟩
    some
      { total_games := historical_games.length
        completed_games := acc.completed_games
        correct_predictions := acc.correct_predictions
        accuracy :=
          if acc.completed_games > 0 then
            (acc.correct_predictions : ℚ) / acc.completed_games
          else 0
        avg_confidence :=
          if acc.completed_games > 0 then
            acc.total_confidence / acc.completed_games
          else 0
        predictions := acc.predictions
        performance_by_confidence := acc.buckets
        factor_analysis := analyzeFactors acc.predictions }

/-- The dictionary returned by simulate_betting_performance. -/
structure BettingResult where
  total_bets : ℕ
  total_wagered : ℚ
  total_winnings : ℚ
  profit_loss : ℚ
  roi_percentage : ℚ
  break_even_accuracy : ℚ
deriving Repr, DecidableEq

/-- Backtester.simulate_betting_performance: bet only on predictions with
confidence at least 60, credit stake times 0.9091 on a win (fixed -110
odds), lose the stake otherwise. -/
def simulateBettingPerformance (backtest_results : Option BacktestData)
    (bet_amount : ℚ) : BettingResult :=
  let preds := (backtest_results.map (fun r => r.predictions)).getD []
  let acc : ℕ × ℚ × ℚ := preds.foldl (fun s prediction =>
    if prediction.confidence < 60 then s
    else
      (s.1 + 1, s.2.1 + bet_amount,
       s.2.2 + (if prediction.correct then bet_amount * (9091/10000) else 0)))
    (0, 0, 0)
  let profit_loss := acc.2.2 - acc.2.1
  let roi := if acc.2.1 > 0 then profit_loss / acc.2.1 * 100 else 0
  ⟨acc.1, acc.2.1, acc.2.2, profit_loss, roi, 5238/100⟩

/-- The dictionary returned by _run_test_backtest. -/
structure TestBacktestResult where
  accuracy : ℚ
  completed_games : ℕ
  correct_predictions : ℕ
deriving Repr, DecidableEq

/-- AlgorithmOptimizer._run_test_backtest.  The engine argument is the test
engine produced by _create_test_engine for one candidate configuration;
the body never consults it: every prediction is produced by
self.backtester._predict_historical_game, whose engine carries the default
factor weights.  The bounded sample is the first 50 completed games. -/
def runTestBacktest (engine : Weights) (stadium_dome : String → Bool)
    (db : List DBGame) : TestBacktestResult :=
  let historical_games := (getHistoricalGames db).take 50
  if historical_games.isEmpty then ⟨0, 0, 0⟩
  else
    let ct : ℕ × ℕ := historical_games.foldl (fun s game =>
      if !isGameCompleted game then s
      else
        match predictHistoricalGame factorWeightsDefault stadium_dome db game with
        | none => s
        | some prediction =>
          let actual_winner := getActualWinner game
          (s.1 + (if prediction.predicted_winner == actual_winner then 1 else 0),
           s.2 + 1)) (0, 0)
    let accuracy := if ct.2 > 0 then (ct.1 : ℚ) / ct.2 else 0
    ⟨accuracy, ct.2, ct.1⟩

/-- AlgorithmOptimizer._generate_weight_combinations: the three canned
candidate configurations. -/
def generateWeightCombinations : List Weights :=
  [[("team_strength", 35/100), ("head_to_head", 20/100), ("home_advantage", 15/100),
    ("rest_advantage", 10/100), ("weather_impact", 10/100), ("motivation", 5/100),
    ("injuries", 5/100)],
   [("team_strength", 45/100), ("head_to_head", 15/100), ("home_advantage", 15/100),
    ("rest_advantage", 10/100), ("weather_impact", 8/100), ("motivation", 4/100),
    ("injuries", 3/100)],
   [("team_strength", 30/100), ("head_to_head", 30/100), ("home_advantage", 15/100),
    ("rest_advantage", 10/100), ("weather_impact", 8/100), ("motivation", 4/100),
    ("injuries", 3/100)]]

/-- An entry of the results_log list of optimize_factor_weights. -/
structure TestLogEntry where
  weights : Weights
  accuracy : ℚ
  total_games : ℕ
deriving Repr, DecidableEq

/-- The loop state of optimize_factor_weights. -/
structure OptState where
  best_accuracy : ℚ
  best_weights : Option Weights
  best_results : Option TestBacktestResult
  results_log : List TestLogEntry
deriving Repr, DecidableEq

/-- The candidate loop of optimize_factor_weights (source lines 47-65);
each list element pairs a candidate configuration with the result of the
test backtest already run for it (the backtest is a pure function, so
precomputing the pairs is observationally identical to running it inside
the loop). -/
def optLoop : OptState → List (Weights × TestBacktestResult) → OptState
  | s, [] => s
  | s, (weights, backtest_results) :: rest =>
    let s1 :=
      if backtest_results.accuracy > s.best_accuracy then
        { s with
          best_accuracy := backtest_results.accuracy
          best_weights := some weights
          best_results := some backtest_results }
      else s
    optLoop
      { s1 with results_log := s1.results_log ++
          [⟨weights, backtest_results.accuracy, backtest_results.completed_games⟩] }
      rest

/-- The dictionary returned by optimize_factor_weights (the
optimization_date wall-clock field is omitted). -/
structure OptimizationResult where
  best_weights : Option Weights
  best_accuracy : ℚ
  best_results : Option TestBacktestResult
  all_tests : List TestLogEntry
deriving Repr, DecidableEq

/-- AlgorithmOptimizer.optimize_factor_weights. -/
def optimizeFactorWeights (stadium_dome : String → Bool) (db : List DBGame) :
    OptimizationResult :=
  let test_combinations := generateWeightCombinations
  let pairs := (test_combinations.take 10).map
    (fun weights => (weights, runTestBacktest weights stadium_dome db))
  let s := optLoop ⟨0, none, none, []⟩ pairs
  ⟨s.best_weights, s.best_accuracy, s.best_results, s.results_log⟩

/-- The weight redistribution step of analyze_factor_importance: pop the
factor, then add to every remaining weight its proportional share of the
removed weight. -/
def redistributeWeights (baseW : Weights) (factor_name : String) : Weights :=
  let removed_weight := (baseW.lookup factor_name).getD 0
  let test_weights := baseW.filter (fun p => p.1 != factor_name)
  let total_remaining := (test_weights.map (fun p => p.2)).sum
  if total_remaining > 0 then
    test_weights.map (fun p => (p.1, p.2 + removed_weight * p.2 / total_remaining))
  else test_weights

/-- A row of the factor_importance table of analyze_factor_importance. -/
structure FactorImportance where
  baseline_accuracy : ℚ
  without_factor_accuracy : ℚ
  accuracy_drop : ℚ
  importance_score : ℚ
deriving Repr, DecidableEq

/-- The per-factor body of the loop of analyze_factor_importance: build the
redistributed configuration, run the bounded test backtest with a test
engine carrying it, and record the accuracy drop against the baseline. -/
def ablateFactor (baseline_accuracy : ℚ) (baseW : Weights)
    (stadium_dome : String → Bool) (db : List DBGame) (factor_name : String) :
    FactorImportance :=
  let test_weights := redistributeWeights baseW factor_name
  let test_results := runTestBacktest test_weights stadium_dome db
  let accuracy_drop := baseline_accuracy - test_results.accuracy
  ⟨baseline_accuracy, test_results.accuracy, accuracy_drop, accuracy_drop * 100⟩

/-- The dictionary returned by analyze_factor_importance on success (the
analysis_date wall-clock field is omitted). -/
structure ImportanceAnalysis where
  baseline_accuracy : ℚ
  factor_importance : List (String × FactorImportance)
deriving Repr, DecidableEq

/-- AlgorithmOptimizer.analyze_factor_importance.  btW is the
factor_weights of the prediction engine owned by the backtester (used by
the baseline full backtest); baseW is base_engine.factor_weights, whose
keys are iterated and redistributed.  Both hold the default configuration
after construction.  Option.none models the error dictionary. -/
def analyzeFactorImportance (btW baseW : Weights)
    (stadium_dome : String → Bool) (db : List DBGame) :
    Option ImportanceAnalysis :=
  match runBacktest btW stadium_dome db with
  | none => none
  | some baseline =>
    if baseline.completed_games == 0 then none
    else
      some
        { baseline_accuracy := baseline.accuracy
          factor_importance := baseW.map (fun p =>
            (p.1, ablateFactor baseline.accuracy baseW stadium_dome db p.1)) }

/-- The mutable state a backtest run can see: the game store and the
factor_weights attribute of the prediction engine owned by the backtester.
run_backtest only reads it. -/
structure BacktesterState where
  db : List DBGame
  engine_weights : Weights
deriving Repr, DecidableEq

/-- Backtester.run_backtest as a state transformer: it returns its result
together with the (unchanged) state it ran against. -/
def runBacktestSt (stadium_dome : String → Bool) (s : BacktesterState) :
    Option BacktestData × BacktesterState :=
  (runBacktest s.engine_weights stadium_dome s.db, s)

/-- Running maximum of the accuracies of a list of candidate results,
starting from a given value; describes the best_accuracy accumulator of
the optimize_factor_weights loop. -/
def accMaxFrom (a : ℚ) (pairs : List (Weights × TestBacktestResult)) : ℚ :=
  pairs.foldl (fun m p => max m p.2.accuracy) a

/-- The log entry built for one candidate by the optimize_factor_weights
loop. -/
def toLogEntry (p : Weights × TestBacktestResult) : TestLogEntry :=
  ⟨p.1, p.2.accuracy, p.2.completed_games⟩

/- Concrete fixtures used by the closed counterexample and witness
theorems below. -/

/-- A stadium table in which no venue is a dome. -/
def outdoorStadiums : String → Bool := fun _ => false

/-- A completed historical game; games with index below 50 are home-team
wins 24-17, later games are away-team wins 17-24.  Team identifiers and
names are distinct across all indices used, so no pair of teams ever has
three historical meetings. -/
def fixtureGame (i : ℕ) : DBGame :=
  { espn_id := toString i
    home_team_id := toString i
    away_team_id := toString (i + 100)
    home_team_name := toString (i + 200)
    away_team_name := toString (i + 300)
    home_score := if i < 50 then 24 else 17
    away_score := if i < 50 then 17 else 24
    status := "STATUS_FINAL"
    weather := none }

/-- A corpus of 51 completed games: 50 home wins followed by one away
win.  The backtester engine predicts the home team for every one of them
(the only factor with nonzero value is Home Advantage), so the full
backtest scores 50/51 while the 50-game test backtest scores 50/50. -/
def fixtureDb51 : List DBGame := (List.range 51).map fixtureGame

/-- A one-game corpus on which every prediction is correct (accuracy 1). -/
def fixtureDb1 : List DBGame := [fixtureGame 0]

/-- A baseline weight configuration whose injuries factor has weight 0. -/
def baseWeightsInjuriesZero : Weights :=
  [("team_strength", 35/100), ("head_to_head", 20/100), ("home_advantage", 15/100),
   ("rest_advantage", 10/100), ("weather_impact", 10/100), ("motivation", 5/100),
   ("injuries", 0)]

/-- A scheduled matchup with fresh teams (no season data, no weather). -/
def demoGame : GameDict :=
  { espn_id := "demo"
    status := "STATUS_SCHEDULED"
    home_team := ⟨"h", "Home", some ⟨some 0, some 0, some 0⟩⟩
    away_team := ⟨"a", "Away", some ⟨some 0, some 0, some 0⟩⟩
    weather := none }

/-- The prediction the engine returns for demoGame over an empty store. -/
def demoPrediction : GamePrediction :=
  match predictSingleGame factorWeightsDefault outdoorStadiums [] demoGame with
  | .ok (some p) => p
  | _ => ⟨"", "", "", "", 0, 0, none, [], ""⟩

/-- Seven factors whose confidence is 0 (values and weights arbitrary). -/
def zeroConfFactors : List PredictionFactor :=
  List.replicate 7 ⟨"Test Factor", 5, 1/2, 0, "no data"⟩

/-- A backtest aggregate holding ten correct predictions at confidence 60. -/
def tenWinsData : BacktestData :=
  { total_games := 10
    completed_games := 10
    correct_predictions := 10
    accuracy := 1
    avg_confidence := 60
    predictions := List.replicate 10
      ⟨"g", "A @ H", "H", "H", 60, true, []⟩
    performance_by_confidence := initialBuckets
    factor_analysis := [] }

/- The arithmetic of the embedding is exact rational arithmetic; the
Batteries rational operations are irreducible by default, which only
hides them from unification, so reducibility is restored for the closed
evaluations below. -/
attribute [local semireducible] Rat.mul Rat.inv Rat.add Rat.sub

set_option maxRecDepth 40000

/-- Rounding to one decimal maps the interval [50, 85] into itself. -/
theorem round1_bounds {x : ℚ} (h1 : 50 ≤ x) (h2 : x ≤ 85) :
    50 ≤ round1 x ∧ round1 x ≤ 85 := by
  have hlo : (500 : ℤ) ≤ round (10 * x) := by
    rw [round_eq, Int.le_floor]
    push_cast
    linarith
  have hhi : round (10 * x) ≤ 850 := by
    rw [round_eq]
    have h4 : (⌊(10 * x + 1 / 2 : ℚ)⌋ : ℤ) < 851 :=
      Int.floor_lt.mpr (by push_cast; linarith)
    omega
  have hlo2 : (500 : ℚ) ≤ ((round (10 * x) : ℤ) : ℚ) := by exact_mod_cast hlo
  have hhi2 : ((round (10 * x) : ℤ) : ℚ) ≤ 850 := by exact_mod_cast hhi
  unfold round1
  constructor
  · rw [le_div_iff₀ (by norm_num : (0:ℚ) < 10)]
    linarith
  · rw [div_le_iff₀ (by norm_num : (0:ℚ) < 10)]
    linarith

/-- The clamped confidence expression of the combination step lies in
[50, 85] for every spread. -/
theorem minConf_bounds (s : ℚ) :
    50 ≤ min 85 (|s| * 8 + 50) ∧ min 85 (|s| * 8 + 50) ≤ 85 := by
  refine ⟨le_min (by norm_num) ?_, min_le_left _ _⟩
  have := abs_nonneg s
  linarith

/-- The combination step always produces a confidence in [50, 85] and
declares one of the two teams the winner. -/
theorem calculateFinalPrediction_bounds (factors : List PredictionFactor)
    (home_team away_team : TeamDict) :
    (50 ≤ (calculateFinalPrediction factors home_team away_team).confidence
      ∧ (calculateFinalPrediction factors home_team away_team).confidence ≤ 85)
    ∧ ((calculateFinalPrediction factors home_team away_team).winner = home_team.name
      ∨ (calculateFinalPrediction factors home_team away_team).winner = away_team.name) := by
  constructor
  · have h := minConf_bounds (combineSpread factors)
    exact round1_bounds h.1 h.2
  · by_cases h : combineSpread factors > 0
    · left
      simp [calculateFinalPrediction, h]
    · right
      simp [calculateFinalPrediction, h]

/-- The accumulation loop ignores every factor whose confidence is 0. -/
theorem combineAcc_foldl_fixed (factors : List PredictionFactor) (s : ℚ × ℚ)
    (h : ∀ f ∈ factors, f.confidence = 0) :
    factors.foldl (fun s factor =>
      if factor.confidence > 0 then
        (s.1 + factor.value * factor.weight * factor.confidence,
         s.2 + factor.weight * factor.confidence)
      else s) s = s := by
  induction factors generalizing s with
  | nil => rfl
  | cons f fs ih =>
    simp only [List.foldl_cons]
    rw [if_neg]
    · exact ih _ (fun g hg => h g (List.mem_cons_of_mem _ hg))
    · rw [h f (List.mem_cons_self f fs)]
      exact lt_irrefl 0

/-- C1.  The claim states that each candidate weight configuration of the
weight search is scored by a backtest whose engine carries that candidate
configuration.  In the code, _run_test_backtest receives the test engine
built by _create_test_engine but never uses it: every prediction is made
by the prediction engine owned by the backtester, which carries the
default weights.  Hence the recorded accuracy is a constant function of
the candidate: any two candidates, with equal or different weights,
receive identical results. -/
theorem c1_test_backtest_ignores_candidate (w1 w2 : Weights)
    (stadium_dome : String → Bool) (db : List DBGame) :
    runTestBacktest w1 stadium_dome db = runTestBacktest w2 stadium_dome db := rfl

/-- C6.  If all seven factors handed to the combination step have
confidence 0, the predicted spread is exactly 0 and the predicted winner
is the away team (the documented tie-break). -/
theorem c6_zero_confidence_tiebreak (factors : List PredictionFactor)
    (home_team away_team : TeamDict) (hlen : factors.length = 7)
    (h : ∀ f ∈ factors, f.confidence = 0) :
    (calculateFinalPrediction factors home_team away_team).spread = 0
    ∧ (calculateFinalPrediction factors home_team away_team).winner = away_team.name := by
  have hacc : combineAcc factors = (0, 0) := combineAcc_foldl_fixed factors (0, 0) h
  have hsp : combineSpread factors = 0 := by
    unfold combineSpread
    rw [hacc]
    norm_num
  constructor
  · show round1 (combineSpread factors) = 0
    rw [hsp]
    norm_num [round1]
  · simp [calculateFinalPrediction, hsp]

/-- Witness for C6 at a concrete list of seven zero-confidence factors. -/
theorem c6_zero_confidence_tiebreak_witness :
    (zeroConfFactors.length = 7 ∧ ∀ f ∈ zeroConfFactors, f.confidence = 0)
    ∧ ((calculateFinalPrediction zeroConfFactors demoGame.home_team demoGame.away_team).spread = 0
      ∧ (calculateFinalPrediction zeroConfFactors demoGame.home_team demoGame.away_team).winner
        = demoGame.away_team.name) :=
  ⟨⟨by decide, by decide⟩,
   c6_zero_confidence_tiebreak zeroConfFactors demoGame.home_team demoGame.away_team
     (by decide) (by decide)⟩

/-- The betting loop over a run of predictions that are all bet on and all
won: each prediction adds one bet, the stake, and the fixed -110 payout. -/
theorem bettingFoldLemma (preds : List PredRecord) (bet_amount : ℚ) (s : ℕ × ℚ × ℚ)
    (h60 : ∀ p ∈ preds, 60 ≤ p.confidence) (hc : ∀ p ∈ preds, p.correct = true) :
    preds.foldl (fun s prediction =>
      if prediction.confidence < 60 then s
      else
        (s.1 + 1, s.2.1 + bet_amount,
         s.2.2 + (if prediction.correct then bet_amount * (9091/10000) else 0))) s
    = (s.1 + preds.length, s.2.1 + preds.length * bet_amount,
       s.2.2 + preds.length * (bet_amount * (9091/10000))) := by
  induction preds generalizing s with
  | nil => simp
  | cons p ps ih =>
    simp only [List.foldl_cons, List.length_cons]
    rw [if_neg (not_lt.mpr (h60 p (List.mem_cons_self p ps))),
      if_pos (hc p (List.mem_cons_self p ps)),
      ih _ (fun q hq => h60 q (List.mem_cons_of_mem _ hq))
        (fun q hq => hc q (List.mem_cons_of_mem _ hq))]
    refine Prod.ext ?_ (Prod.ext ?_ ?_)
    · simp
      omega
    · simp
      ring
    · simp
      ring

/-- C7.  A backtest result with exactly ten predictions, each at
confidence at least 60 and each correct, simulated at stake 100, reports
1000 wagered, 909.1 returned and a loss of 90.9 (the fixed -110 payout
constant 0.9091 per unit staked). -/
theorem c7_betting_simulation (results : BacktestData)
    (hlen : results.predictions.length = 10)
    (h60 : ∀ p ∈ results.predictions, 60 ≤ p.confidence)
    (hc : ∀ p ∈ results.predictions, p.correct = true) :
    (simulateBettingPerformance (some results) 100).total_wagered = 1000
    ∧ (simulateBettingPerformance (some results) 100).total_winnings = 9091/10
    ∧ (simulateBettingPerformance (some results) 100).profit_loss = -909/10 := by
  have hfold := bettingFoldLemma results.predictions 100 (0, 0, 0) h60 hc
  rw [hlen] at hfold
  unfold simulateBettingPerformance
  simp only [Option.map_some', Option.getD_some, hfold]
  norm_num

/-- Witness for C7 at a concrete ten-prediction backtest result. -/
theorem c7_betting_simulation_witness :
    (tenWinsData.predictions.length = 10
      ∧ (∀ p ∈ tenWinsData.predictions, 60 ≤ p.confidence)
      ∧ (∀ p ∈ tenWinsData.predictions, p.correct = true))
    ∧ ((simulateBettingPerformance (some tenWinsData) 100).total_wagered = 1000
      ∧ (simulateBettingPerformance (some tenWinsData) 100).total_winnings = 9091/10
      ∧ (simulateBettingPerformance (some tenWinsData) 100).profit_loss = -909/10) :=
  ⟨⟨by decide, by decide, by decide⟩,
   c7_betting_simulation tenWinsData (by decide) (by decide) (by decide)⟩

/-- C8.  The Team Strength calculator on a 10-0-0 home record against a
0-10-0 away record returns value (1.0 - 0.0) * 14 = 14 and confidence
min(0.9, 20/20) = 0.9. -/
theorem c8_team_strength_example :
    (calcTeamStrength factorWeightsDefault
      ⟨"home-id", "Home", some ⟨some 10, some 0, some 0⟩⟩
      ⟨"away-id", "Away", some ⟨some 0, some 10, some 0⟩⟩).value = 14
    ∧ (calcTeamStrength factorWeightsDefault
      ⟨"home-id", "Home", some ⟨some 10, some 0, some 0⟩⟩
      ⟨"away-id", "Away", some ⟨some 0, some 10, some 0⟩⟩).confidence = 9/10 := by
  decide

/-- C9.  run_backtest only reads the store and the engine configuration:
as a state transformer it leaves the state unchanged, so a second run over
the unchanged corpus reproduces every aggregate of the first run
(total games, completed games, correct predictions, accuracy, average
confidence, the confidence-bucket table and the factor-attribution
table). -/
theorem c9_backtest_idempotent (stadium_dome : String → Bool) (s : BacktesterState) :
    (runBacktestSt stadium_dome s).2 = s
    ∧ (runBacktestSt stadium_dome ((runBacktestSt stadium_dome s).2)).1.map
        (fun r => r.total_games)
      = (runBacktestSt stadium_dome s).1.map (fun r => r.total_games)
    ∧ (runBacktestSt stadium_dome ((runBacktestSt stadium_dome s).2)).1.map
        (fun r => r.completed_games)
      = (runBacktestSt stadium_dome s).1.map (fun r => r.completed_games)
    ∧ (runBacktestSt stadium_dome ((runBacktestSt stadium_dome s).2)).1.map
        (fun r => r.correct_predictions)
      = (runBacktestSt stadium_dome s).1.map (fun r => r.correct_predictions)
    ∧ (runBacktestSt stadium_dome ((runBacktestSt stadium_dome s).2)).1.map
        (fun r => r.accuracy)
      = (runBacktestSt stadium_dome s).1.map (fun r => r.accuracy)
    ∧ (runBacktestSt stadium_dome ((runBacktestSt stadium_dome s).2)).1.map
        (fun r => r.avg_confidence)
      = (runBacktestSt stadium_dome s).1.map (fun r => r.avg_confidence)
    ∧ (runBacktestSt stadium_dome ((runBacktestSt stadium_dome s).2)).1.map
        (fun r => r.performance_by_confidence)
      = (runBacktestSt stadium_dome s).1.map (fun r => r.performance_by_confidence)
    ∧ (runBacktestSt stadium_dome ((runBacktestSt stadium_dome s).2)).1.map
        (fun r => r.factor_analysis)
      = (runBacktestSt stadium_dome s).1.map (fun r => r.factor_analysis) :=
  ⟨rfl, rfl, rfl, rfl, rfl, rfl, rfl, rfl⟩

/-- C2 counterexample.  The claim states that every calculator, including
Home Advantage, never raises outward and converts any internal error into
a value-0 confidence-0 factor.  On a weight configuration lacking the
home_advantage key — exactly the configurations analyze_factor_importance
builds when it pops that factor — the Home Advantage calculator raises a
KeyError outward: its except branch re-reads factor_weights before it can
return its (non-zero) fallback factor. -/
theorem c2_calculator_failure_counterexample :
    calcHomeAdvantage (factorWeightsDefault.filter (fun p => p.1 != "home_advantage"))
      outdoorStadiums "1" = .error "KeyError: home_advantage" := rfl

/-- C2 amended.  Six of the seven calculators (Team Strength,
Head-to-Head, Rest, Weather, Motivation, Injuries) never raise outward
and convert any internal error into a value-0 confidence-0 factor with an
explanatory string.  The Home Advantage calculator is the exception: its
except branch returns a factor with value 2.5 and confidence 0.8 (not
zeros) when the configured weight is available, and raises outward when
the home_advantage key is absent from the weight configuration. -/
theorem c2_calculator_failure_policy (w : Weights) (home_team away_team : TeamDict)
    (db : List DBGame) (home_id away_id : String) (stadium_dome : String → Bool)
    (weather : Option WeatherDict) :
    (∀ e, teamStrengthBody w home_team away_team = .error e →
      calcTeamStrength w home_team away_team
        = ⟨"Team Strength", 0, 0, 0, "Calculation error"⟩)
    ∧ (∀ e, headToHeadBody w db home_id away_id = .error e →
      calcHeadToHead w db home_id away_id
        = ⟨"Head-to-Head", 0, 0, 0, "Historical data unavailable"⟩)
    ∧ (w.lookup "rest_advantage" = none →
      calcRest w = ⟨"Rest Advantage", 0, 0, 0, "Data unavailable"⟩)
    ∧ (∀ e, weatherBody w weather = .error e →
      calcWeather w weather = ⟨"Weather", 0, 0, 0, "Weather calculation error"⟩)
    ∧ (w.lookup "motivation" = none →
      calcMotivation w = ⟨"Motivation", 0, 0, 0, "Motivation data unavailable"⟩)
    ∧ (w.lookup "injuries" = none →
      calcInjuries w = ⟨"Injuries", 0, 0, 0, "Injury data unavailable"⟩)
    ∧ (∀ e, homeAdvantageBody w stadium_dome home_id = .error e →
      calcHomeAdvantage w stadium_dome home_id = homeAdvantageExcept w)
    ∧ (∀ wt, w.lookup "home_advantage" = some wt →
      homeAdvantageExcept w
        = .ok ⟨"Home Advantage", 25/10, wt, 8/10, "Standard advantage"⟩)
    ∧ (w.lookup "home_advantage" = none →
      calcHomeAdvantage w stadium_dome home_id = .error "KeyError: home_advantage") := by
  refine ⟨?_, ?_, ?_, ?_, ?_, ?_, ?_, ?_, ?_⟩
  · intro e he
    simp [calcTeamStrength, he]
  · intro e he
    simp [calcHeadToHead, he]
  · intro h
    simp [calcRest, h]
  · intro e he
    simp [calcWeather, he]
  · intro h
    simp [calcMotivation, h]
  · intro h
    simp [calcInjuries, h]
  · intro e he
    simp [calcHomeAdvantage, he]
  · intro wt h
    simp [homeAdvantageExcept, h]
  · intro h
    have hbody : homeAdvantageBody w stadium_dome home_id
        = .error "KeyError: home_advantage" := by
      simp [homeAdvantageBody, dictGet, h, Bind.bind, Except.bind]
    simp [calcHomeAdvantage, hbody, homeAdvantageExcept, h]

/-- Witness for C2 amended: each error path exercised at a concrete
input (a record dictionary lacking the wins key for Team Strength; an
empty weight configuration for the five weight-lookup paths; the popped
configuration for Home Advantage). -/
theorem c2_calculator_failure_policy_witness :
    calcTeamStrength factorWeightsDefault
        ⟨"h", "H", some ⟨none, some 0, some 0⟩⟩ ⟨"a", "A", some ⟨some 0, some 0, some 0⟩⟩
      = ⟨"Team Strength", 0, 0, 0, "Calculation error"⟩
    ∧ calcHeadToHead [] [] "h" "a" = ⟨"Head-to-Head", 0, 0, 0, "Historical data unavailable"⟩
    ∧ calcRest [] = ⟨"Rest Advantage", 0, 0, 0, "Data unavailable"⟩
    ∧ calcWeather [] none = ⟨"Weather", 0, 0, 0, "Weather calculation error"⟩
    ∧ calcMotivation [] = ⟨"Motivation", 0, 0, 0, "Motivation data unavailable"⟩
    ∧ calcInjuries [] = ⟨"Injuries", 0, 0, 0, "Injury data unavailable"⟩
    ∧ homeAdvantageExcept factorWeightsDefault
      = .ok ⟨"Home Advantage", 25/10, 15/100, 8/10, "Standard advantage"⟩
    ∧ calcHomeAdvantage (factorWeightsDefault.filter (fun p => p.1 != "home_advantage"))
        outdoorStadiums "h" = .error "KeyError: home_advantage" :=
  ⟨(c2_calculator_failure_policy factorWeightsDefault
      ⟨"h", "H", some ⟨none, some 0, some 0⟩⟩ ⟨"a", "A", some ⟨some 0, some 0, some 0⟩⟩
      [] "h" "a" outdoorStadiums none).1 "KeyError: wins" rfl,
   (c2_calculator_failure_policy [] ⟨"h", "H", none⟩ ⟨"a", "A", none⟩
      [] "h" "a" outdoorStadiums none).2.1 "KeyError: head_to_head" rfl,
   (c2_calculator_failure_policy [] ⟨"h", "H", none⟩ ⟨"a", "A", none⟩
      [] "h" "a" outdoorStadiums none).2.2.1 rfl,
   (c2_calculator_failure_policy [] ⟨"h", "H", none⟩ ⟨"a", "A", none⟩
      [] "h" "a" outdoorStadiums none).2.2.2.1 "KeyError: weather_impact" rfl,
   (c2_calculator_failure_policy [] ⟨"h", "H", none⟩ ⟨"a", "A", none⟩
      [] "h" "a" outdoorStadiums none).2.2.2.2.1 rfl,
   (c2_calculator_failure_policy [] ⟨"h", "H", none⟩ ⟨"a", "A", none⟩
      [] "h" "a" outdoorStadiums none).2.2.2.2.2.1 rfl,
   (c2_calculator_failure_policy factorWeightsDefault ⟨"h", "H", none⟩ ⟨"a", "A", none⟩
      [] "h" "a" outdoorStadiums none).2.2.2.2.2.2.2.1 (15/100) rfl,
   (c2_calculator_failure_policy
      (factorWeightsDefault.filter (fun p => p.1 != "home_advantage"))
      ⟨"h", "H", none⟩ ⟨"a", "A", none⟩
      [] "h" "a" outdoorStadiums none).2.2.2.2.2.2.2.2 rfl⟩

/-- C3 counterexample.  The claim states that the ablation importance
score of a factor whose baseline weight is 0 is always 0.  Over the
51-game corpus, with the baseline configuration whose injuries weight is
0, the importance score recorded for injuries is (50/51 - 50/50) * 100 =
-100/51, not 0: the baseline accuracy comes from the full backtest over
all 51 completed games (50/51), while the ablated accuracy comes from the
bounded test backtest over only the first 50 completed games (50/50),
even though removing the zero-weight factor changes no weight at all. -/
theorem c3_zero_weight_ablation_counterexample :
    ((analyzeFactorImportance factorWeightsDefault baseWeightsInjuriesZero
        outdoorStadiums fixtureDb51).map
      (fun a => (a.factor_importance.lookup "injuries").map
        (fun fi => fi.importance_score))) = some (some (-100/51))
    ∧ baseWeightsInjuriesZero.lookup "injuries" = some 0 := by
  constructor
  · decide
  · decide

/-- C3 amended.  Removing a factor whose baseline weight is 0 leaves
every remaining weight unchanged (the redistribution adds the removed
weight 0 proportionally), and the importance score recorded for it equals
(baseline accuracy - accuracy of the bounded 50-game test backtest run on
the unchanged remaining configuration) * 100 — a quantity that is 0 only
when those two accuracies coincide, not in general, because the baseline
is measured on the full corpus while the ablated accuracy is measured on
at most the first 50 completed games. -/
theorem c3_zero_weight_ablation (baseW : Weights) (stadium_dome : String → Bool)
    (db : List DBGame) (factor_name : String) (baseline_accuracy : ℚ)
    (h : baseW.lookup factor_name = some 0) :
    redistributeWeights baseW factor_name = baseW.filter (fun p => p.1 != factor_name)
    ∧ (ablateFactor baseline_accuracy baseW stadium_dome db factor_name).importance_score
      = (baseline_accuracy
          - (runTestBacktest (baseW.filter (fun p => p.1 != factor_name))
              stadium_dome db).accuracy) * 100 := by
  have hred : redistributeWeights baseW factor_name
      = baseW.filter (fun p => p.1 != factor_name) := by
    unfold redistributeWeights
    rw [h]
    simp only [Option.getD_some, zero_mul, zero_div, add_zero]
    split
    · simp
    · rfl
  refine ⟨hred, ?_⟩
  unfold ablateFactor
  rw [hred]

/-- Witness for C3 amended at a concrete two-entry configuration whose
first factor has weight 0. -/
theorem c3_zero_weight_ablation_witness :
    ([("a", 0), ("b", 1/2)] : Weights).lookup "a" = some 0
    ∧ (redistributeWeights [("a", 0), ("b", 1/2)] "a"
        = ([("a", 0), ("b", 1/2)] : Weights).filter (fun p => p.1 != "a")
      ∧ (ablateFactor (1/2) [("a", 0), ("b", 1/2)] outdoorStadiums [] "a").importance_score
        = ((1:ℚ)/2
            - (runTestBacktest (([("a", 0), ("b", 1/2)] : Weights).filter
                (fun p => p.1 != "a")) outdoorStadiums []).accuracy) * 100) :=
  ⟨by decide,
   c3_zero_weight_ablation [("a", 0), ("b", 1/2)] outdoorStadiums [] "a" (1/2) (by decide)⟩

theorem accMaxFrom_cons (a : ℚ) (p : Weights × TestBacktestResult)
    (l : List (Weights × TestBacktestResult)) :
    accMaxFrom a (p :: l) = accMaxFrom (max a p.2.accuracy) l := rfl

theorem le_accMaxFrom (l : List (Weights × TestBacktestResult)) :
    ∀ a : ℚ, a ≤ accMaxFrom a l := by
  induction l with
  | nil => intro a; exact le_refl a
  | cons p l ih =>
    intro a
    rw [accMaxFrom_cons]
    exact le_trans (le_max_left _ _) (ih _)

theorem accMaxFrom_mem_le (l : List (Weights × TestBacktestResult))
    (p : Weights × TestBacktestResult) (hp : p ∈ l) :
    ∀ a : ℚ, p.2.accuracy ≤ accMaxFrom a l := by
  induction l with
  | nil => cases hp
  | cons q l ih =>
    intro a
    rw [accMaxFrom_cons]
    rcases List.mem_cons.mp hp with h | h
    · subst h
      exact le_trans (le_max_right _ _) (le_accMaxFrom _ _)
    · exact ih h _

theorem accMaxFrom_of_le (l : List (Weights × TestBacktestResult)) :
    ∀ a : ℚ, (∀ p ∈ l, p.2.accuracy ≤ a) → accMaxFrom a l = a := by
  induction l with
  | nil => intro a _; rfl
  | cons q l ih =>
    intro a h
    rw [accMaxFrom_cons, max_eq_left (h q (List.mem_cons_self q l))]
    exact ih a (fun p hp => h p (List.mem_cons_of_mem _ hp))

theorem optLoop_cons_pos (s : OptState) (w : Weights) (r : TestBacktestResult)
    (rest : List (Weights × TestBacktestResult)) (h : r.accuracy > s.best_accuracy) :
    optLoop s ((w, r) :: rest)
    = optLoop ⟨r.accuracy, some w, some r,
        s.results_log ++ [⟨w, r.accuracy, r.completed_games⟩]⟩ rest := by
  simp [optLoop, h]

theorem optLoop_cons_neg (s : OptState) (w : Weights) (r : TestBacktestResult)
    (rest : List (Weights × TestBacktestResult)) (h : ¬(r.accuracy > s.best_accuracy)) :
    optLoop s ((w, r) :: rest)
    = optLoop ⟨s.best_accuracy, s.best_weights, s.best_results,
        s.results_log ++ [⟨w, r.accuracy, r.completed_games⟩]⟩ rest := by
  simp [optLoop, h]

/-- When no remaining candidate beats the running best accuracy, the best
fields of the loop state survive unchanged. -/
theorem optLoop_no_beat (l : List (Weights × TestBacktestResult)) :
    ∀ s : OptState, (∀ p ∈ l, p.2.accuracy ≤ s.best_accuracy) →
    (optLoop s l).best_accuracy = s.best_accuracy
    ∧ (optLoop s l).best_weights = s.best_weights := by
  induction l with
  | nil => intro s _; exact ⟨rfl, rfl⟩
  | cons p rest ih =>
    intro s h
    obtain ⟨w, r⟩ := p
    have hr : ¬(r.accuracy > s.best_accuracy) :=
      not_lt.mpr (h (w, r) (List.mem_cons_self _ _))
    rw [optLoop_cons_neg s w r rest hr]
    exact ih _ (fun q hq => h q (List.mem_cons_of_mem _ hq))

/-- The loop appends one log entry per candidate, in candidate order. -/
theorem optLoop_log (l : List (Weights × TestBacktestResult)) :
    ∀ s : OptState, (optLoop s l).results_log = s.results_log ++ l.map toLogEntry := by
  induction l with
  | nil => intro s; simp [optLoop]
  | cons p rest ih =>
    intro s
    obtain ⟨w, r⟩ := p
    by_cases hr : r.accuracy > s.best_accuracy
    · rw [optLoop_cons_pos s w r rest hr, ih]
      simp [toLogEntry]
    · rw [optLoop_cons_neg s w r rest hr, ih]
      simp [toLogEntry]

/-- The selection loop with strict improvement keeps the first candidate
achieving the overall maximum accuracy, whenever some candidate exceeds
the initial best accuracy. -/
theorem optLoop_first_max (l : List (Weights × TestBacktestResult)) :
    ∀ s : OptState, (∃ p ∈ l, s.best_accuracy < p.2.accuracy) →
    ∃ l₁ p l₂, l = l₁ ++ p :: l₂
      ∧ (optLoop s l).best_weights = some p.1
      ∧ (optLoop s l).best_accuracy = p.2.accuracy
      ∧ p.2.accuracy = accMaxFrom s.best_accuracy l
      ∧ ∀ q ∈ l₁, q.2.accuracy < p.2.accuracy := by
  induction l with
  | nil =>
    intro s h
    simp at h
  | cons hd rest ih =>
    intro s hex
    obtain ⟨w, r⟩ := hd
    by_cases hr : r.accuracy > s.best_accuracy
    · rw [optLoop_cons_pos s w r rest hr]
      by_cases h2 : ∃ q ∈ rest, r.accuracy < q.2.accuracy
      · have h2' : ∃ q ∈ rest,
            (⟨r.accuracy, some w, some r,
              s.results_log ++ [⟨w, r.accuracy, r.completed_games⟩]⟩ : OptState).best_accuracy
            < q.2.accuracy := h2
        obtain ⟨l₁, p, l₂, heq, hw, hacc, hmax, hlt⟩ := ih _ h2'
        refine ⟨(w, r) :: l₁, p, l₂, by rw [heq, List.cons_append], hw, hacc, ?_, ?_⟩
        · rw [accMaxFrom_cons, max_eq_right (le_of_lt hr)]
          exact hmax
        · intro q hq
          rcases List.mem_cons.mp hq with h | h
          · subst h
            obtain ⟨q₀, hq₀, hlt₀⟩ := h2
            calc (w, r).2.accuracy < q₀.2.accuracy := hlt₀
              _ ≤ accMaxFrom r.accuracy rest := accMaxFrom_mem_le rest q₀ hq₀ _
              _ = p.2.accuracy := hmax.symm
          · exact hlt q h
      · push_neg at h2
        have hnb := optLoop_no_beat rest
          ⟨r.accuracy, some w, some r,
            s.results_log ++ [⟨w, r.accuracy, r.completed_games⟩]⟩ h2
        refine ⟨[], (w, r), rest, rfl, ?_, ?_, ?_, by simp⟩
        · rw [hnb.2]
        · rw [hnb.1]
        · rw [accMaxFrom_cons, max_eq_right (le_of_lt hr)]
          exact (accMaxFrom_of_le rest r.accuracy h2).symm
    · rw [optLoop_cons_neg s w r rest hr]
      have hex' : ∃ q ∈ rest,
          (⟨s.best_accuracy, s.best_weights, s.best_results,
            s.results_log ++ [⟨w, r.accuracy, r.completed_games⟩]⟩ : OptState).best_accuracy
          < q.2.accuracy := by
        obtain ⟨p, hp, hlt⟩ := hex
        rcases List.mem_cons.mp hp with h | h
        · subst h
          exact absurd hlt hr
        · exact ⟨p, h, hlt⟩
      obtain ⟨l₁, p, l₂, heq, hw, hacc, hmax, hlt⟩ := ih _ hex'
      refine ⟨(w, r) :: l₁, p, l₂, by rw [heq, List.cons_append], hw, hacc, ?_, ?_⟩
      · rw [accMaxFrom_cons, max_eq_left (not_lt.mp hr)]
        exact hmax
      · intro q hq
        rcases List.mem_cons.mp hq with h | h
        · subst h
          obtain ⟨q₀, hq₀, hlt₀⟩ := hex'
          calc (w, r).2.accuracy ≤ s.best_accuracy := not_lt.mp hr
            _ < q₀.2.accuracy := hlt₀
            _ ≤ accMaxFrom s.best_accuracy rest := accMaxFrom_mem_le rest q₀ hq₀ _
            _ = p.2.accuracy := hmax.symm
        · exact hlt q h

/-- C4 counterexample.  The claim states a best configuration is always
returned when at least one candidate was evaluated.  Over an empty
historical corpus every candidate records accuracy 0, the strict
improvement test never fires against the initial best accuracy of 0, and
the search returns best_weights = None even though three candidates were
evaluated. -/
theorem c4_no_best_counterexample :
    (optimizeFactorWeights outdoorStadiums []).best_weights = none
    ∧ (optimizeFactorWeights outdoorStadiums []).all_tests.length = 3 := by
  constructor
  · decide
  · decide

/-- C4 amended.  Whenever some evaluated candidate records strictly
positive accuracy, the weight search returns a best configuration, namely
the earliest candidate in evaluation order achieving the maximum recorded
accuracy (ties keep the first-seen best); when every candidate records
accuracy 0 no best configuration is returned. -/
theorem c4_first_seen_best (stadium_dome : String → Bool) (db : List DBGame)
    (h : ∃ e ∈ (optimizeFactorWeights stadium_dome db).all_tests, 0 < e.accuracy) :
    ∃ l₁ e l₂,
      (optimizeFactorWeights stadium_dome db).all_tests = l₁ ++ e :: l₂
      ∧ (optimizeFactorWeights stadium_dome db).best_weights = some e.weights
      ∧ (optimizeFactorWeights stadium_dome db).best_accuracy = e.accuracy
      ∧ (∀ e2 ∈ (optimizeFactorWeights stadium_dome db).all_tests, e2.accuracy ≤ e.accuracy)
      ∧ (∀ e2 ∈ l₁, e2.accuracy < e.accuracy) := by
  have hall : (optimizeFactorWeights stadium_dome db).all_tests
      = (optLoop ⟨0, none, none, []⟩ ((generateWeightCombinations.take 10).map
          (fun weights => (weights, runTestBacktest weights stadium_dome db)))).results_log := rfl
  have hbw : (optimizeFactorWeights stadium_dome db).best_weights
      = (optLoop ⟨0, none, none, []⟩ ((generateWeightCombinations.take 10).map
          (fun weights => (weights, runTestBacktest weights stadium_dome db)))).best_weights := rfl
  have hba : (optimizeFactorWeights stadium_dome db).best_accuracy
      = (optLoop ⟨0, none, none, []⟩ ((generateWeightCombinations.take 10).map
          (fun weights => (weights, runTestBacktest weights stadium_dome db)))).best_accuracy := rfl
  have hlog : (optLoop ⟨0, none, none, []⟩ ((generateWeightCombinations.take 10).map
      (fun weights => (weights, runTestBacktest weights stadium_dome db)))).results_log
      = ((generateWeightCombinations.take 10).map
          (fun weights => (weights, runTestBacktest weights stadium_dome db))).map toLogEntry := by
    rw [optLoop_log]
    simp
  have hex : ∃ p ∈ ((generateWeightCombinations.take 10).map
      (fun weights => (weights, runTestBacktest weights stadium_dome db))),
      (⟨0, none, none, []⟩ : OptState).best_accuracy < p.2.accuracy := by
    obtain ⟨e, he, hpos⟩ := h
    rw [hall, hlog] at he
    obtain ⟨p, hp, hpe⟩ := List.mem_map.mp he
    refine ⟨p, hp, ?_⟩
    show (0 : ℚ) < p.2.accuracy
    rw [← hpe] at hpos
    exact hpos
  obtain ⟨l₁, p, l₂, heq, hw, hacc, hmax, hlt⟩ := optLoop_first_max _ _ hex
  refine ⟨l₁.map toLogEntry, toLogEntry p, l₂.map toLogEntry, ?_, ?_, ?_, ?_, ?_⟩
  · rw [hall, hlog, heq]
    simp
  · rw [hbw, hw]
    rfl
  · rw [hba, hacc]
    rfl
  · intro e2 he2
    rw [hall, hlog] at he2
    obtain ⟨q, hq, hqe⟩ := List.mem_map.mp he2
    rw [← hqe]
    show q.2.accuracy ≤ (toLogEntry p).accuracy
    calc q.2.accuracy
        ≤ accMaxFrom (⟨0, none, none, []⟩ : OptState).best_accuracy
            ((generateWeightCombinations.take 10).map
              (fun weights => (weights, runTestBacktest weights stadium_dome db))) :=
          accMaxFrom_mem_le _ q hq _
      _ = p.2.accuracy := hmax.symm
  · intro e2 he2
    obtain ⟨q, hq, hqe⟩ := List.mem_map.mp he2
    rw [← hqe]
    exact hlt q hq

/-- Witness for C4 amended over a one-game corpus on which every
candidate records accuracy 1. -/
theorem c4_first_seen_best_witness :
    (∃ e ∈ (optimizeFactorWeights outdoorStadiums fixtureDb1).all_tests, 0 < e.accuracy)
    ∧ (∃ l₁ e l₂,
        (optimizeFactorWeights outdoorStadiums fixtureDb1).all_tests = l₁ ++ e :: l₂
        ∧ (optimizeFactorWeights outdoorStadiums fixtureDb1).best_weights = some e.weights
        ∧ (optimizeFactorWeights outdoorStadiums fixtureDb1).best_accuracy = e.accuracy
        ∧ (∀ e2 ∈ (optimizeFactorWeights outdoorStadiums fixtureDb1).all_tests,
            e2.accuracy ≤ e.accuracy)
        ∧ (∀ e2 ∈ l₁, e2.accuracy < e.accuracy)) :=
  ⟨by decide, c4_first_seen_best outdoorStadiums fixtureDb1 (by decide)⟩

/-- Every rounded-to-one-decimal value is an integer multiple of 1/10. -/
theorem round1_int_div (x : ℚ) : ∃ k : ℤ, round1 x = (k : ℚ) / 10 :=
  ⟨round (10 * x), rfl⟩

/-- C5.  Every prediction the engine returns for an eligible (scheduled)
matchup carries a confidence in the closed interval [50, 85] and a
predicted winner equal to the home team name or the away team name —
never a third value (in particular never the sentinel string "TIE", which
is produced only by the backtester for drawn final scores and is not a
team name). -/
theorem c5_prediction_bounds (w : Weights) (stadium_dome : String → Bool)
    (db : List DBGame) (game : GameDict) (p : GamePrediction)
    (h : predictSingleGame w stadium_dome db game = .ok (some p)) :
    50 ≤ p.confidence ∧ p.confidence ≤ 85
    ∧ (p.predicted_winner = game.home_team.name
      ∨ p.predicted_winner = game.away_team.name) := by
  unfold predictSingleGame at h
  split_ifs at h with hstatus
  · simp at h
  · cases hha : calcHomeAdvantage w stadium_dome game.home_team.id with
    | error e =>
      rw [hha] at h
      simp at h
    | ok f3 =>
      rw [hha] at h
      simp only [Except.ok.injEq, Option.some.injEq] at h
      subst h
      refine ⟨?_, ?_, ?_⟩
      · exact (calculateFinalPrediction_bounds _ game.home_team game.away_team).1.1
      · exact (calculateFinalPrediction_bounds _ game.home_team game.away_team).1.2
      · exact (calculateFinalPrediction_bounds _ game.home_team game.away_team).2

/-- Witness for C5 at a concrete scheduled matchup. -/
theorem c5_prediction_bounds_witness :
    50 ≤ demoPrediction.confidence ∧ demoPrediction.confidence ≤ 85
    ∧ (demoPrediction.predicted_winner = demoGame.home_team.name
      ∨ demoPrediction.predicted_winner = demoGame.away_team.name) :=
  c5_prediction_bounds factorWeightsDefault outdoorStadiums [] demoGame demoPrediction rfl

/-- C10.  The confidence and the spread carried by every returned
prediction are rounded to one decimal place: each is an integer multiple
of 1/10. -/
theorem c10_one_decimal (w : Weights) (stadium_dome : String → Bool)
    (db : List DBGame) (game : GameDict) (p : GamePrediction)
    (h : predictSingleGame w stadium_dome db game = .ok (some p)) :
    (∃ k : ℤ, p.confidence = (k : ℚ) / 10)
    ∧ (∃ m : ℤ, p.spread_prediction = (m : ℚ) / 10) := by
  unfold predictSingleGame at h
  split_ifs at h with hstatus
  · simp at h
  · cases hha : calcHomeAdvantage w stadium_dome game.home_team.id with
    | error e =>
      rw [hha] at h
      simp at h
    | ok f3 =>
      rw [hha] at h
      simp only [Except.ok.injEq, Option.some.injEq] at h
      subst h
      exact ⟨round1_int_div _, round1_int_div _⟩

/-- Witness for C10 at a concrete scheduled matchup. -/
theorem c10_one_decimal_witness :
    (∃ k : ℤ, demoPrediction.confidence = (k : ℚ) / 10)
    ∧ (∃ m : ℤ, demoPrediction.spread_prediction = (m : ℚ) / 10) :=
  c10_one_decimal factorWeightsDefault outdoorStadiums [] demoGame demoPrediction rfl

end SportsAnalyzer
